import Mathlib

/-!
Verification development for the PiJuice firmware sources.

Embedded code:
* `Inc/nv.h` — the non-volatile store header: record-validity macro,
  data-initialized macro, non-stored sentinel, and the variable catalogue
  enumeration `NvVarId_T`.
* `osloop.c` — the cooperative service scheduler: `OSLOOP_TIMER_IRQHandler`,
  `OSLOOP_Init`, `OSLOOP_Service`, `OSLOOP_Shutdown`, `OSLOOP_Restart`,
  `OSLOOP_AtomicAccess`.

Machine integers are modelled as `Nat` with explicit masking/modulus where the
C width matters.  External peripheral routines (ADC, IODRV, ANALOG, I2CDRV,
HOSTCOMMS, LED, NvTask) have no body in the sources; the scheduler model
records each call it makes to one of them as an `Event` in a trace, which is
exactly the information the scheduler-level claims are about.
-/

set_option maxHeartbeats 1000000
set_option maxRecDepth 100000

namespace PiJuice

/-! Section: nv.h macro layer -/

/-- Constant `NV_INVALID_VARIABLE` of nv.h: `((uint16_t)0x000f)`. -/
def NV_INVALID_VARIABLE : Nat := 0x000f

/-- Constant `NV_READ_VARIABLE_SUCCESS` of nv.h: `((uint16_t)0)`. -/
def NV_READ_VARIABLE_SUCCESS : Nat := 0

/-- Constant `NV_VARIABLE_NON_STORED` of nv.h: the literal `0xffffffff` cast to
`uint16_t`, i.e. reduced modulo 2^16. -/
def NV_VARIABLE_NON_STORED : Nat := 0xffffffff % 2 ^ 16

/-- Macro `NV_IS_DATA_INITIALIZED` of nv.h: `(nvInitFlag != 0Xffff)`.  The
flag `nvInitFlag` is a `uint16_t`, modelled as its numeric value. -/
def NV_IS_DATA_INITIALIZED (nvInitFlag : Nat) : Bool :=
  nvInitFlag != 0xffff

/-- Macro `NV_IS_VARIABLE_VALID(var)` of nv.h: `(((~var)&0xFF) == (var>>8))`
for a `uint16_t` record `var`.  For a 16-bit value, C's `(~var) & 0xFF` is the
bitwise complement of the low byte, written here as `(var &&& 0xFF) ^^^ 0xFF`,
and `var >> 8` is the high byte. -/
def NV_IS_VARIABLE_VALID (var : Nat) : Bool :=
  ((var &&& 0xFF) ^^^ 0xFF) == (var >>> 8)

/-- Modelled from the spec: the codec's `encode(payload: u8) -> PhysicalRecord`
(spec section 4.2) — the write path of `NV_WriteVariable_U8` in nv.c, which is
not among the sources.  The 16-bit record carries the payload in the low byte
and `checksum = complement(payload)` in the high byte (the layout checked by
`NV_IS_VARIABLE_VALID`); the byte-wise complement is xor with 0xFF. -/
def NV_encode (payload : Nat) : Nat :=
  ((payload % 256) ^^^ 0xFF) * 256 + payload % 256

/-- Modelled from the spec: the codec's `decode(record) -> Result<u8, Invalid>`
(spec section 4.2) — the read path of `NV_ReadVariable_U8` in nv.c, which is
not among the sources.  It recomputes the expected checksum via
`NV_IS_VARIABLE_VALID` and returns the low-byte payload on a match, signalling
`Invalid` (`none`) otherwise. -/
def NV_decode (record : Nat) : Option Nat :=
  if NV_IS_VARIABLE_VALID record then some (record &&& 0xFF) else none

/-! Section: variable catalogue (NvVarId_T of nv.h) -/

/-- Enumerator list `NV_VAR_LIST` of nv.h, in source order.  C gives the k-th
enumerator of `NvVarId_T` the value k, and that enumerator value is the
variable's virtual address in the physical record layer. -/
def NV_VAR_LIST : List String := [
    "NV_STATIC_START_ID",
    "NV_STATIC_ADDR_RESERVED0",
    "VDG_ILOAD_CALIB_KTA_NV_ADDR",
    "VDG_ILOAD_CALIB_KTB_NV_ADDR",
    "RES_ILOAD_CALIB_ZERO_NV_ADDR",
    "NV_STATIC_ADDR_RESERVED1",
    "NV_STATIC_ADDR_RESERVED2",
    "NV_STATIC_ADDR_RESERVED3",
    "NV_STATIC_ADDR_RESERVED4",
    "NV_STATIC_ADDR_RESERVED5",
    "NV_STATIC_ADDR_RESERVED6",
    "NV_STATIC_ADDR_RESERVED7",
    "NV_STATIC_ADDR_RESERVED8",
    "NV_STATIC_ADDR_RESERVED9",
    "NV_STATIC_ADDR_RESERVED10",
    "NV_STATIC_ADDR_RESERVED11",
    "NV_STATIC_ADDR_RESERVED12",
    "NV_START_ID",
    "NV_ADDR_RESERVED0",
    "BAT_PROFILE_NV_ADDR",
    "BAT_CAPACITY_NV_ADDR",
    "CHARGE_CURRENT_NV_ADDR",
    "CHARGE_TERM_CURRENT_NV_ADDR",
    "BAT_REG_VOLTAGE_NV_ADDR",
    "BAT_CUTOFF_VOLTAGE_NV_ADDR",
    "BAT_TEMP_COLD_NV_ADDR",
    "BAT_TEMP_COOL_NV_ADDR",
    "BAT_TEMP_WARM_NV_ADDR",
    "BAT_TEMP_HOT_NV_ADDR",
    "BAT_NTC_B_NV_ADDR",
    "BAT_NTC_RESISTANCE_NV_ADDR",
    "BAT_NTC_CRC_NV_ADDR",
    "FUEL_GAUGE_CONFIG_NV_ADDR",
    "CHARGING_CONFIG_NV_ADDR",
    "CHARGER_INPUTS_CONFIG_NV_ADDR",
    "WATCHDOG_CONFIGL_NV_ADDR",
    "NV_ADDR_RESERVED5",
    "BUTTON_PRESS_FUNC_SW1",
    "BUTTON_PRESS_CONFIG_SW1",
    "BUTTON_RELEASE_FUNC_SW1",
    "BUTTON_RELEASE_CONFIG_SW1",
    "BUTTON_SINGLE_PRESS_FUNC_SW1",
    "BUTTON_SINGLE_PRESS_CONFIG_SW1",
    "BUTTON_DOUBLE_PRESS_FUNC_SW1",
    "BUTTON_DOUBLE_PRESS_CONFIG_SW1",
    "BUTTON_LONG_PRESS1_FUNC_SW1",
    "BUTTON_LONG_PRESS1_CONFIG_SW1",
    "BUTTON_LONG_PRESS2_FUNC_SW1",
    "BUTTON_LONG_PRESS2_CONFIG_SW1",
    "WAKEUPONCHARGE_CONFIG_NV_ADDR",
    "BUTTON_PRESS_FUNC_SW2",
    "BUTTON_PRESS_CONFIG_SW2",
    "BUTTON_RELEASE_FUNC_SW2",
    "BUTTON_RELEASE_CONFIG_SW2",
    "BUTTON_SINGLE_PRESS_FUNC_SW2",
    "BUTTON_SINGLE_PRESS_CONFIG_SW2",
    "BUTTON_DOUBLE_PRESS_FUNC_SW2",
    "BUTTON_DOUBLE_PRESS_CONFIG_SW2",
    "BUTTON_LONG_PRESS1_FUNC_SW2",
    "BUTTON_LONG_PRESS1_CONFIG_SW2",
    "BUTTON_LONG_PRESS2_FUNC_SW2",
    "BUTTON_LONG_PRESS2_CONFIG_SW2",
    "NV_ADDR_RESERVED7",
    "BUTTON_PRESS_FUNC_SW3",
    "BUTTON_PRESS_CONFIG_SW3",
    "BUTTON_RELEASE_FUNC_SW3",
    "BUTTON_RELEASE_CONFIG_SW3",
    "BUTTON_SINGLE_PRESS_FUNC_SW3",
    "BUTTON_SINGLE_PRESS_CONFIG_SW3",
    "BUTTON_DOUBLE_PRESS_FUNC_SW3",
    "BUTTON_DOUBLE_PRESS_CONFIG_SW3",
    "BUTTON_LONG_PRESS1_FUNC_SW3",
    "BUTTON_LONG_PRESS1_CONFIG_SW3",
    "BUTTON_LONG_PRESS2_FUNC_SW3",
    "BUTTON_LONG_PRESS2_CONFIG_SW3",
    "NV_ADDR_RESERVED8",
    "NV_LED_FUNC_1",
    "NV_LED_PARAM_R_1",
    "NV_LED_PARAM_G_1",
    "NV_LED_PARAM_B_1",
    "NV_LED_FUNC_2",
    "NV_LED_PARAM_R_2",
    "NV_LED_PARAM_G_2",
    "NV_LED_PARAM_B_2",
    "NV_ADDR_RESERVED9",
    "NV_ADDR_RESERVED10",
    "POWER_REGULATOR_CONFIG_NV_ADDR",
    "NV_RUN_PIN_CONFIG",
    "NV_ADDR_RESERVED11",
    "OWN_ADDRESS1_NV_ADDR",
    "OWN_ADDRESS2_NV_ADDR",
    "ID_EEPROM_ADR_NV_ADDR",
    "NV_ADDR_RESERVED12",
    "IO_CONFIG1_NV_ADDR",
    "IO_CONFIG1_PARAM1_NV_ADDR",
    "IO_CONFIG1_PARAM2_NV_ADDR",
    "IO_CONFIG2_NV_ADDR",
    "IO_CONFIG2_PARAM1_NV_ADDR",
    "IO_CONFIG2_PARAM2_NV_ADDR",
    "NV_ADDR_RESERVED13",
    "BAT_CHEMISTRY_NV_ADDR",
    "BAT_OCV10L_NV_ADDR",
    "BAT_OCV10H_NV_ADDR",
    "BAT_OCV50L_NV_ADDR",
    "BAT_OCV50H_NV_ADDR",
    "BAT_OCV90L_NV_ADDR",
    "BAT_OCV90H_NV_ADDR",
    "BAT_R10L_NV_ADDR",
    "BAT_R10H_NV_ADDR",
    "BAT_R50L_NV_ADDR",
    "BAT_R50H_NV_ADDR",
    "BAT_R90L_NV_ADDR",
    "BAT_R90H_NV_ADDR",
    "WATCHDOG_CONFIGH_NV_ADDR",
    "ISENSE_RES_SPAN_L",
    "ISENSE_RES_SPAN_H"
]

/-- Virtual address of a catalogue identifier: its enumerator value, i.e. its
zero-based position in `NV_VAR_LIST` (`none` for a name that is not in the
catalogue). -/
def NvVirtualAddress (name : String) : Option Nat :=
  NV_VAR_LIST.indexOf? name

/-- Enumerator `NV_VAR_NUM`: the trailing enumerator of `NvVarId_T`, whose C
value is the number of entries of `NV_VAR_LIST`. -/
def NV_VAR_NUM : Nat := NV_VAR_LIST.length

/-- Identifiers of the static region of the catalogue: the block listed in
nv.h from `NV_STATIC_START_ID` ("static variables are not deleted when reset
to default") up to, and not including, `NV_START_ID` ("starting id of
variables"). -/
def nvStaticRegionList : List String := [
    "NV_STATIC_START_ID",
    "NV_STATIC_ADDR_RESERVED0",
    "VDG_ILOAD_CALIB_KTA_NV_ADDR",
    "VDG_ILOAD_CALIB_KTB_NV_ADDR",
    "RES_ILOAD_CALIB_ZERO_NV_ADDR",
    "NV_STATIC_ADDR_RESERVED1",
    "NV_STATIC_ADDR_RESERVED2",
    "NV_STATIC_ADDR_RESERVED3",
    "NV_STATIC_ADDR_RESERVED4",
    "NV_STATIC_ADDR_RESERVED5",
    "NV_STATIC_ADDR_RESERVED6",
    "NV_STATIC_ADDR_RESERVED7",
    "NV_STATIC_ADDR_RESERVED8",
    "NV_STATIC_ADDR_RESERVED9",
    "NV_STATIC_ADDR_RESERVED10",
    "NV_STATIC_ADDR_RESERVED11",
    "NV_STATIC_ADDR_RESERVED12"
]

/-! Section: cooperative service scheduler (osloop.c) -/

/-- Calls the scheduler makes to the peripheral modules and to the store's
drain task.  The peripheral routines have no body among the sources, so the
scheduler model records each call as a trace event; `nvTask` is in the
alphabet so that membership of the store's `NvTask` in a trace can be
stated. -/
inductive OsEvent where
  | adcInit
  | iodrvInit
  | analogInit
  | i2cdrvInit
  | hostcommsInit
  | ledInit
  | adcService
  | iodrvService
  | analogService
  | i2cdrvService
  | hostcommsService
  | ledService
  | adcShutdown
  | iodrvShutdown
  | analogShutdown
  | i2cdrvShutdown
  | hostcommsShutdown
  | ledShutdown
  | nvTask
  deriving DecidableEq

/-- Modelled from the spec: `TIM_IT_UPDATE`, the STM32 timer update-interrupt
bit (bit 0 of the DIER register); the HAL headers defining it are not among
the sources. -/
def TIM_IT_UPDATE : Nat := 1

/-- Modelled from the spec: `TIM_CR1_CEN`, the STM32 timer counter-enable bit
(bit 0 of the CR1 register); the HAL headers defining it are not among the
sources. -/
def TIM_CR1_CEN : Nat := 1

/-- C complement `~m` of a mask on a 32-bit register. -/
def not32 (m : Nat) : Nat := 0xFFFFFFFF ^^^ m

/-- Constant `OSLOOP_LOOP_TRACKER_COUNT` of osloop.c (`16u`). -/
def OSLOOP_LOOP_TRACKER_COUNT : Nat := 16

/-- State touched by osloop.c: the `TIMER_OSLOOP` registers it reads or
writes, and the module's two file-scope variables. -/
structure OsState where
  cr1 : Nat
  dier : Nat
  sr : Nat
  m_osloopTimeTrack : List Nat
  m_osloopTimeTrackIdx : Nat

/-- Values the scheduler reads from its environment during one call:
`HAL_GetTick()` and the two reads of `TIMER_OSLOOP->CNT`. -/
structure OsEnv where
  sysTime : Nat
  cntIn : Nat
  cntOut : Nat

/-- Reset state: C zero-initialises the file-scope variables
(`m_osloopTimeTrackIdx = 0u`, the tracker array all zero), and the modelled
`TIMER_OSLOOP` register bits reset to 0. -/
def osloopResetState : OsState :=
  { cr1 := 0, dier := 0, sr := 0,
    m_osloopTimeTrack := List.replicate OSLOOP_LOOP_TRACKER_COUNT 0,
    m_osloopTimeTrackIdx := 0 }

/-- Concrete environment used by concrete evaluations. -/
def osEnv0 : OsEnv := { sysTime := 0, cntIn := 0, cntOut := 0 }

/-- Function `OSLOOP_Service` of osloop.c: calls the six module service
routines in source order (ADC, IODRV, ANALOG, I2CDRV, HOSTCOMMS, LED), then
stores the elapsed timer count into tracker slot `m_osloopTimeTrackIdx`,
increments the index, and wraps it to 0 once it reaches
`OSLOOP_LOOP_TRACKER_COUNT`.  The `uint32_t` subtraction
`TIMER_OSLOOP->CNT - timeIn` is taken modulo 2^32. -/
def OSLOOP_Service (env : OsEnv) (s : OsState) : OsState × List OsEvent :=
  let events := [OsEvent.adcService, OsEvent.iodrvService, OsEvent.analogService,
    OsEvent.i2cdrvService, OsEvent.hostcommsService, OsEvent.ledService]
  let delta := (2 ^ 32 + env.cntOut % 2 ^ 32 - env.cntIn % 2 ^ 32) % 2 ^ 32
  let track := s.m_osloopTimeTrack.set s.m_osloopTimeTrackIdx delta
  let idx1 := s.m_osloopTimeTrackIdx + 1
  let idx2 := if OSLOOP_LOOP_TRACKER_COUNT = idx1 then 0 else idx1
  ({ s with m_osloopTimeTrack := track, m_osloopTimeTrackIdx := idx2 }, events)

/-- Function `OSLOOP_TIMER_IRQHandler` of osloop.c: runs `OSLOOP_Service`,
then clears the update flag in the timer status register
(`SR &= ~TIM_IT_UPDATE`). -/
def OSLOOP_TIMER_IRQHandler (env : OsEnv) (s : OsState) : OsState × List OsEvent :=
  let r := OSLOOP_Service env s
  ({ r.1 with sr := r.1.sr &&& not32 TIM_IT_UPDATE }, r.2)

/-- Function `OSLOOP_Init` of osloop.c: calls the six module init routines in
source order (ADC, IODRV, ANALOG, I2CDRV, HOSTCOMMS, LED), then starts the os
timer (`CR1 |= TIM_CR1_CEN`, `DIER |= TIM_IT_UPDATE`). -/
def OSLOOP_Init (s : OsState) : OsState × List OsEvent :=
  ({ s with cr1 := s.cr1 ||| TIM_CR1_CEN, dier := s.dier ||| TIM_IT_UPDATE },
   [OsEvent.adcInit, OsEvent.iodrvInit, OsEvent.analogInit, OsEvent.i2cdrvInit,
    OsEvent.hostcommsInit, OsEvent.ledInit])

/-- Function `OSLOOP_Shutdown` of osloop.c: first clears the update-interrupt
enable (`DIER &= ~TIM_IT_UPDATE`, "Stop the interrupt occuring"), then calls
the shutdown routines of ADC, IODRV, ANALOG, I2CDRV and LED — and of no other
module. -/
def OSLOOP_Shutdown (s : OsState) : OsState × List OsEvent :=
  ({ s with dier := s.dier &&& not32 TIM_IT_UPDATE },
   [OsEvent.adcShutdown, OsEvent.iodrvShutdown, OsEvent.analogShutdown,
    OsEvent.i2cdrvShutdown, OsEvent.ledShutdown])

/-- Function `OSLOOP_Restart` of osloop.c: calls the init routines of ADC,
IODRV, ANALOG, I2CDRV and LED — and of no other module — then restarts the os
timer (`CR1 |= TIM_CR1_CEN`, `DIER |= TIM_IT_UPDATE`). -/
def OSLOOP_Restart (s : OsState) : OsState × List OsEvent :=
  ({ s with cr1 := s.cr1 ||| TIM_CR1_CEN, dier := s.dier ||| TIM_IT_UPDATE },
   [OsEvent.adcInit, OsEvent.iodrvInit, OsEvent.analogInit, OsEvent.i2cdrvInit,
    OsEvent.ledInit])

/-- Function `OSLOOP_AtomicAccess` of osloop.c: with `true` it clears the
update-interrupt enable of DIER, with `false` it sets it. -/
def OSLOOP_AtomicAccess (access : Bool) (s : OsState) : OsState :=
  if true == access then { s with dier := s.dier &&& not32 TIM_IT_UPDATE }
  else { s with dier := s.dier ||| TIM_IT_UPDATE }

/-- Modelled from the spec: the fixed-period timer hardware raises the update
interrupt — running `OSLOOP_TIMER_IRQHandler` — only while the
update-interrupt enable bit of DIER (`TIM_IT_UPDATE`, bit 0) is set; clearing
that bit stops the interrupt occurring, which is exactly what
`OSLOOP_Shutdown` and `OSLOOP_AtomicAccess` rely on. -/
def timerTick (env : OsEnv) (s : OsState) : OsState × List OsEvent :=
  if s.dier.testBit 0 then OSLOOP_TIMER_IRQHandler env s else (s, [])

/-- Trace of n timer periods: the final state and the concatenated events of
n consecutive `timerTick`s, the k-th tick reading environment `envs k`. -/
def runTicks (envs : Nat → OsEnv) : Nat → OsState → OsState × List OsEvent
  | 0, s => (s, [])
  | n + 1, s =>
    let t := timerTick (envs n) s
    let r := runTicks envs n t.1
    (r.1, t.2 ++ r.2)

/-- State after n periodic service calls, the k-th call reading `envs k`. -/
def runService (envs : Nat → OsEnv) : Nat → OsState → OsState
  | 0, s => s
  | n + 1, s => (OSLOOP_Service (envs n) (runService envs n s)).1


/-! Section: theorems -/

/-- Helper: masking with 0xFF is reduction modulo 256. -/
theorem land_ff_eq_mod (x : Nat) : x &&& 0xFF = x % 256 := by
  have h := Nat.and_pow_two_sub_one_eq_mod x 8
  norm_num at h
  exact h

/-- Helper: shifting right by 8 is division by 256. -/
theorem shiftRight_eight_eq_div (x : Nat) : x >>> 8 = x / 256 := by
  have h := Nat.shiftRight_eq_div_pow x 8
  norm_num at h
  exact h

/-- Helper: the high byte of an encoded record is the complement of the
payload byte. -/
theorem NV_encode_shiftRight (p : Nat) (hp : p < 256) :
    NV_encode p >>> 8 = p ^^^ 0xFF := by
  unfold NV_encode
  rw [Nat.mod_eq_of_lt hp, shiftRight_eight_eq_div, Nat.mul_comm,
    Nat.mul_add_div (by norm_num), Nat.div_eq_of_lt hp]
  exact Nat.add_zero _

/-- Helper: the low byte of an encoded record is the payload byte. -/
theorem NV_encode_land (p : Nat) (hp : p < 256) :
    NV_encode p &&& 0xFF = p := by
  unfold NV_encode
  rw [Nat.mod_eq_of_lt hp, land_ff_eq_mod, Nat.mul_comm, Nat.mul_add_mod,
    Nat.mod_eq_of_lt hp]

/-- C1: for every payload byte p, the encoded 16-bit record has the bitwise
complement of p as its high byte and p as its low byte, `NV_IS_VARIABLE_VALID`
holds of it, and decoding recovers p (codec round-trip). -/
theorem spec_c1_codec_round_trip (p : Nat) (hp : p < 256) :
    (NV_encode p) >>> 8 = p ^^^ 0xFF ∧
    (NV_encode p) &&& 0xFF = p ∧
    NV_encode p < 2 ^ 16 ∧
    NV_IS_VARIABLE_VALID (NV_encode p) = true ∧
    NV_decode (NV_encode p) = some p := by
  have hhi := NV_encode_shiftRight p hp
  have hlo := NV_encode_land p hp
  have hvalid : NV_IS_VARIABLE_VALID (NV_encode p) = true := by
    unfold NV_IS_VARIABLE_VALID
    rw [hhi, hlo]
    exact beq_self_eq_true _
  have hlt : NV_encode p < 2 ^ 16 := by
    have hc : p ^^^ 0xFF < 256 := by
      have h8 : (256 : Nat) = 2 ^ 8 := by norm_num
      rw [h8]
      exact Nat.xor_lt_two_pow (h8 ▸ hp) (by norm_num)
    unfold NV_encode
    rw [Nat.mod_eq_of_lt hp,
      show (2 : Nat) ^ 16 = 65536 from by norm_num]
    omega
  refine ⟨hhi, hlo, hlt, hvalid, ?_⟩
  unfold NV_decode
  rw [hvalid, hlo]
  simp

/-- Witness for C1 at the concrete payload 0xA5. -/
theorem spec_c1_codec_round_trip_witness :
    (NV_encode 0xA5) >>> 8 = 0xA5 ^^^ 0xFF ∧
    (NV_encode 0xA5) &&& 0xFF = 0xA5 ∧
    NV_encode 0xA5 < 2 ^ 16 ∧
    NV_IS_VARIABLE_VALID (NV_encode 0xA5) = true ∧
    NV_decode (NV_encode 0xA5) = some 0xA5 :=
  spec_c1_codec_round_trip 0xA5 (by decide)

/-- C2: a 16-bit record passes `NV_IS_VARIABLE_VALID` exactly when its high
byte is the bitwise complement of its low byte; every record violating that —
the erased-flash pattern 0xFFFF among them — decodes to `Invalid` (`none`). -/
theorem spec_c2_invalid_records_rejected (r : Nat) (hr : r < 2 ^ 16) :
    (NV_IS_VARIABLE_VALID r = true ↔ r >>> 8 = ((r &&& 0xFF) ^^^ 0xFF)) ∧
    (r >>> 8 ≠ ((r &&& 0xFF) ^^^ 0xFF) → NV_decode r = none) ∧
    NV_decode 0xFFFF = none := by
  have hiff : NV_IS_VARIABLE_VALID r = true ↔ r >>> 8 = ((r &&& 0xFF) ^^^ 0xFF) := by
    unfold NV_IS_VARIABLE_VALID
    rw [beq_iff_eq]
    exact eq_comm
  refine ⟨hiff, ?_, by decide⟩
  intro hne
  have hnv : ¬ NV_IS_VARIABLE_VALID r = true := fun hv => hne (hiff.mp hv)
  unfold NV_decode
  rw [if_neg hnv]

/-- Witness for C2 at the concrete record 0xFFFF (erased flash). -/
theorem spec_c2_invalid_records_rejected_witness :
    ((NV_IS_VARIABLE_VALID 0xFFFF = true ↔
      (0xFFFF : Nat) >>> 8 = (((0xFFFF : Nat) &&& 0xFF) ^^^ 0xFF)) ∧
     ((0xFFFF : Nat) >>> 8 ≠ (((0xFFFF : Nat) &&& 0xFF) ^^^ 0xFF) →
      NV_decode 0xFFFF = none) ∧
     NV_decode 0xFFFF = none) ∧
    NV_decode 0xFFFF = none :=
  ⟨spec_c2_invalid_records_rejected 0xFFFF (by decide),
   (spec_c2_invalid_records_rejected 0xFFFF (by decide)).2.1 (by decide)⟩

/-- C8: the initialized/uninitialized decision is exactly the comparison with
the all-ones 16-bit sentinel — `NV_IS_DATA_INITIALIZED` holds iff the stored
flag differs from 0xFFFF — and `NV_VARIABLE_NON_STORED`, the `uint16_t` cast
of 0xffffffff, equals that same 0xFFFF erased-flash pattern. -/
theorem spec_c8_sentinel (flag : Nat) :
    (NV_IS_DATA_INITIALIZED flag = true ↔ flag ≠ 0xFFFF) ∧
    NV_VARIABLE_NON_STORED = 0xFFFF := by
  constructor
  · unfold NV_IS_DATA_INITIALIZED
    simp
  · decide

/-- Helper: a conjunction with a mask whose bit 0 is clear has bit 0 clear. -/
theorem testBit0_of_land (d m : Nat) (hm : m.testBit 0 = false) :
    (d &&& m).testBit 0 = false := by
  rw [Nat.testBit_and, hm, Bool.and_false]

/-- Helper: a disjunction with a mask whose bit 0 is set has bit 0 set. -/
theorem testBit0_of_lor (d m : Nat) (hm : m.testBit 0 = true) :
    (d ||| m).testBit 0 = true := by
  rw [Nat.testBit_or, hm, Bool.or_true]

/-- Helper: while the update-interrupt enable bit is clear, timer periods
dispatch nothing and leave the state unchanged. -/
theorem runTicks_gated (envs : Nat → OsEnv) (n : Nat) (s : OsState)
    (h : s.dier.testBit 0 = false) : runTicks envs n s = (s, []) := by
  induction n with
  | zero => rfl
  | succ n ih => simp [runTicks, timerTick, h, ih]

/-- C3 counterexample: at the reset state, the periodic service call does not
invoke the Non-Volatile Store's drain task `NvTask`; its callback list is the
six peripheral service routines only. -/
theorem spec_c3_counterexample :
    OsEvent.nvTask ∉ (OSLOOP_Service osEnv0 osloopResetState).2 := by
  decide

/-- C3 (amended): every timer-interrupt period runs `OSLOOP_Service`, which
invokes exactly the six registered service callbacks (ADC, IODRV, ANALOG,
I2CDRV, HOSTCOMMS, LED); the store's drain task `NvTask` is not among the
scheduler's service callbacks. -/
theorem spec_c3_service_callbacks_no_nvtask (env : OsEnv) (s : OsState) :
    (OSLOOP_TIMER_IRQHandler env s).2 = (OSLOOP_Service env s).2 ∧
    (OSLOOP_Service env s).2 =
      [OsEvent.adcService, OsEvent.iodrvService, OsEvent.analogService,
       OsEvent.i2cdrvService, OsEvent.hostcommsService, OsEvent.ledService] ∧
    OsEvent.nvTask ∉ (OSLOOP_Service env s).2 := by
  refine ⟨rfl, rfl, ?_⟩
  show OsEvent.nvTask ∉
    [OsEvent.adcService, OsEvent.iodrvService, OsEvent.analogService,
     OsEvent.i2cdrvService, OsEvent.hostcommsService, OsEvent.ledService]
  decide

/-- C4: within any single periodic service call, the invoked routines are
exactly ADC, IODRV, ANALOG, I2CDRV, HOSTCOMMS, LED, in that fixed order,
independent of the state and of the environment, and each is invoked exactly
once. -/
theorem spec_c4_service_order_fixed (env : OsEnv) (s : OsState) :
    (OSLOOP_Service env s).2 =
      [OsEvent.adcService, OsEvent.iodrvService, OsEvent.analogService,
       OsEvent.i2cdrvService, OsEvent.hostcommsService, OsEvent.ledService] ∧
    (OSLOOP_Service env s).2.count OsEvent.adcService = 1 ∧
    (OSLOOP_Service env s).2.count OsEvent.iodrvService = 1 ∧
    (OSLOOP_Service env s).2.count OsEvent.analogService = 1 ∧
    (OSLOOP_Service env s).2.count OsEvent.i2cdrvService = 1 ∧
    (OSLOOP_Service env s).2.count OsEvent.hostcommsService = 1 ∧
    (OSLOOP_Service env s).2.count OsEvent.ledService = 1 := by
  exact ⟨rfl, rfl, rfl, rfl, rfl, rfl, rfl⟩

/-- C5 counterexample: `OSLOOP_Init` initialises HOSTCOMMS but
`OSLOOP_Restart` does not re-initialise it. -/
theorem spec_c5_counterexample :
    OsEvent.hostcommsInit ∈ (OSLOOP_Init osloopResetState).2 ∧
    OsEvent.hostcommsInit ∉ (OSLOOP_Restart osloopResetState).2 := by
  decide

/-- C5 (amended): the restart operation re-initialises ADC, IODRV, ANALOG,
I2CDRV and LED and re-enables the periodic timer, with exactly the same
register effect as a fresh init — but unlike init it does not re-initialise
HOSTCOMMS. -/
theorem spec_c5_restart_reinitialises (s : OsState) :
    (OSLOOP_Init s).2 =
      [OsEvent.adcInit, OsEvent.iodrvInit, OsEvent.analogInit,
       OsEvent.i2cdrvInit, OsEvent.hostcommsInit, OsEvent.ledInit] ∧
    (OSLOOP_Restart s).2 =
      [OsEvent.adcInit, OsEvent.iodrvInit, OsEvent.analogInit,
       OsEvent.i2cdrvInit, OsEvent.ledInit] ∧
    (OSLOOP_Restart s).1 = (OSLOOP_Init s).1 ∧
    (OSLOOP_Restart s).1.dier.testBit 0 = true ∧
    (OSLOOP_Restart s).1.cr1.testBit 0 = true := by
  refine ⟨rfl, rfl, rfl, ?_, ?_⟩
  · exact testBit0_of_lor _ _ (by decide)
  · exact testBit0_of_lor _ _ (by decide)

/-- C6 counterexample: HOSTCOMMS takes part in the scheduler's lifecycle (its
init routine is called by `OSLOOP_Init`), yet `OSLOOP_Shutdown` does not
invoke its shutdown routine. -/
theorem spec_c6_counterexample :
    OsEvent.hostcommsInit ∈ (OSLOOP_Init osloopResetState).2 ∧
    OsEvent.hostcommsShutdown ∉ (OSLOOP_Shutdown osloopResetState).2 := by
  decide

/-- C6 (amended): after shutdown the timer's update-interrupt enable bit is
clear, so no further periodic service call is dispatched by any number of
timer periods until a restart; the shutdown routines invoked are those of
ADC, IODRV, ANALOG, I2CDRV and LED — HOSTCOMMS's shutdown routine is not
invoked. -/
theorem spec_c6_shutdown_stops_dispatch (s : OsState) (envs : Nat → OsEnv) (n : Nat) :
    (OSLOOP_Shutdown s).1.dier.testBit 0 = false ∧
    (OSLOOP_Shutdown s).2 =
      [OsEvent.adcShutdown, OsEvent.iodrvShutdown, OsEvent.analogShutdown,
       OsEvent.i2cdrvShutdown, OsEvent.ledShutdown] ∧
    runTicks envs n (OSLOOP_Shutdown s).1 = ((OSLOOP_Shutdown s).1, []) := by
  have hb : (OSLOOP_Shutdown s).1.dier.testBit 0 = false :=
    testBit0_of_land _ _ (by decide)
  exact ⟨hb, rfl, runTicks_gated envs n _ hb⟩

/-- C7: for every prior state of the DIER register, the atomic-access gate
called with `true` clears the update-interrupt enable bit and called with
`false` sets it; while the gate is held, no number of timer periods can
dispatch the periodic service. -/
theorem spec_c7_atomic_access (s : OsState) (envs : Nat → OsEnv) (n : Nat) :
    (OSLOOP_AtomicAccess true s).dier.testBit 0 = false ∧
    (OSLOOP_AtomicAccess false s).dier.testBit 0 = true ∧
    runTicks envs n (OSLOOP_AtomicAccess true s) = (OSLOOP_AtomicAccess true s, []) := by
  have h1 : (OSLOOP_AtomicAccess true s).dier.testBit 0 = false := by
    show ({ s with dier := s.dier &&& not32 TIM_IT_UPDATE } : OsState).dier.testBit 0 = false
    exact testBit0_of_land _ _ (by decide)
  have h2 : (OSLOOP_AtomicAccess false s).dier.testBit 0 = true := by
    show ({ s with dier := s.dier ||| TIM_IT_UPDATE } : OsState).dier.testBit 0 = true
    exact testBit0_of_lor _ _ (by decide)
  exact ⟨h1, h2, runTicks_gated envs n _ h1⟩

/-- Helper: one service call maps the tracker index to its incremented,
wrapped-at-16 value. -/
theorem OSLOOP_Service_idx (env : OsEnv) (s : OsState) :
    (OSLOOP_Service env s).1.m_osloopTimeTrackIdx =
      if OSLOOP_LOOP_TRACKER_COUNT = s.m_osloopTimeTrackIdx + 1 then 0
      else s.m_osloopTimeTrackIdx + 1 := rfl

/-- Helper: one service call preserves the tracker array length. -/
theorem OSLOOP_Service_track_length (env : OsEnv) (s : OsState) :
    (OSLOOP_Service env s).1.m_osloopTimeTrack.length = s.m_osloopTimeTrack.length := by
  show (s.m_osloopTimeTrack.set s.m_osloopTimeTrackIdx _).length = _
  simp

/-- Helper: from the reset state, after any number of service calls the
tracker index stays below 16 and the tracker array keeps length 16. -/
theorem runService_inv (envs : Nat → OsEnv) (n : Nat) :
    (runService envs n osloopResetState).m_osloopTimeTrackIdx < OSLOOP_LOOP_TRACKER_COUNT ∧
    (runService envs n osloopResetState).m_osloopTimeTrack.length = OSLOOP_LOOP_TRACKER_COUNT := by
  induction n with
  | zero =>
    constructor
    · show osloopResetState.m_osloopTimeTrackIdx < OSLOOP_LOOP_TRACKER_COUNT
      decide
    · show osloopResetState.m_osloopTimeTrack.length = OSLOOP_LOOP_TRACKER_COUNT
      decide
  | succ n ih =>
    constructor
    · show (OSLOOP_Service (envs n) (runService envs n osloopResetState)).1.m_osloopTimeTrackIdx <
        OSLOOP_LOOP_TRACKER_COUNT
      rw [OSLOOP_Service_idx]
      have h := ih.1
      unfold OSLOOP_LOOP_TRACKER_COUNT at h ⊢
      split <;> omega
    · show (OSLOOP_Service (envs n) (runService envs n osloopResetState)).1.m_osloopTimeTrack.length =
        OSLOOP_LOOP_TRACKER_COUNT
      rw [OSLOOP_Service_track_length]
      exact ih.2

/-- C10: starting from the reset state (index 0), before and after every
periodic service call the tracker index is strictly below
`OSLOOP_LOOP_TRACKER_COUNT` (16) while the tracker array keeps length 16 — so
the write into `m_osloopTimeTrack`, which happens at the pre-call index, is
always within bounds — and each call increments the index by one, wrapping it
to 0 when it reaches 16. -/
theorem spec_c10_tracker_index_bounded (envs : Nat → OsEnv) (n : Nat) :
    (runService envs 0 osloopResetState).m_osloopTimeTrackIdx = 0 ∧
    (runService envs n osloopResetState).m_osloopTimeTrackIdx < OSLOOP_LOOP_TRACKER_COUNT ∧
    (runService envs n osloopResetState).m_osloopTimeTrack.length = OSLOOP_LOOP_TRACKER_COUNT ∧
    (runService envs (n + 1) osloopResetState).m_osloopTimeTrackIdx =
      (if OSLOOP_LOOP_TRACKER_COUNT = (runService envs n osloopResetState).m_osloopTimeTrackIdx + 1
       then 0 else (runService envs n osloopResetState).m_osloopTimeTrackIdx + 1) := by
  refine ⟨rfl, (runService_inv envs n).1, (runService_inv envs n).2, ?_⟩
  show (OSLOOP_Service (envs n) (runService envs n osloopResetState)).1.m_osloopTimeTrackIdx = _
  exact OSLOOP_Service_idx _ _

/-- C9: in the catalogue enumeration, each entry's virtual address is its
zero-based position (`NV_VAR_LIST` has no duplicate, so looking an entry up
by name returns its position); `NV_START_ID` sits at position 17, every
static-region id precedes it, every regular-region id follows it, and
`NV_VAR_NUM` — the trailing enumerator — equals the total number of catalogue
entries, 116. -/
theorem spec_c9_catalogue :
    NV_VAR_NUM = NV_VAR_LIST.length ∧
    NV_VAR_NUM = 116 ∧
    NvVirtualAddress "NV_START_ID" = some 17 ∧
    (∀ i : Fin NV_VAR_LIST.length, NV_VAR_LIST.indexOf? (NV_VAR_LIST.get i) = some i.val) ∧
    (∀ name ∈ nvStaticRegionList,
      (NvVirtualAddress name).isSome = true ∧
      (NvVirtualAddress name).getD NV_VAR_NUM < 17) ∧
    (∀ name ∈ NV_VAR_LIST, name ∉ nvStaticRegionList → name ≠ "NV_START_ID" →
      17 < (NvVirtualAddress name).getD 0) := by
  refine ⟨rfl, by decide, by decide, by decide, by decide, by decide⟩

/-- Witness for C9 at concrete catalogue entries: the static-region
calibration id VDG_ILOAD_CALIB_KTA_NV_ADDR resolves to an address below 17,
and the regular-region id BAT_PROFILE_NV_ADDR to one above 17. -/
theorem spec_c9_catalogue_witness :
    ((NvVirtualAddress "VDG_ILOAD_CALIB_KTA_NV_ADDR").isSome = true ∧
     (NvVirtualAddress "VDG_ILOAD_CALIB_KTA_NV_ADDR").getD NV_VAR_NUM < 17) ∧
    17 < (NvVirtualAddress "BAT_PROFILE_NV_ADDR").getD 0 :=
  ⟨spec_c9_catalogue.2.2.2.2.1 "VDG_ILOAD_CALIB_KTA_NV_ADDR" (by decide),
   spec_c9_catalogue.2.2.2.2.2 "BAT_PROFILE_NV_ADDR" (by decide) (by decide) (by decide)⟩

end PiJuice
